import Mathlib

/-!
Verification development for the insurance-enrollment portal (`app.py`).

The development shallowly embeds the application-lifecycle state machine
(`InsuranceApplication.recompute_status`), the approval actions of the
partner-admin and global-admin insurance handlers, the edit/delete gates of
the member, partner-admin and global-admin screens, the settlement
aggregations, the duplicate checks of member/partner-group creation, and the
`admin_required` authorization decorator.

Time model: all timestamps are civil Asia/Seoul (KST) wall-clock instants —
the source interprets every stored timestamp in the single fixed zone KST
(`_ensure_aware` attaches KST to naive values).  We represent an instant as a
natural number of minutes since 0001-01-01T00:00 KST, and a calendar date as
its day number (minutes of its midnight = day * 1440).  `timedelta(hours=2)`
is 120 minutes, `timedelta(days=30)` is 43200 minutes.
-/

/-- Minutes in a day. -/
def minutesPerDay : Nat := 1440

/-- `timedelta(hours=2)` in minutes. -/
def twoHours : Nat := 120

/-- `timedelta(days=30)` in minutes. -/
def thirtyDays : Nat := 43200

/-- Gregorian leap-year test (proleptic), as used by Python `datetime`. -/
def isLeap (y : Nat) : Bool :=
  (y % 4 == 0 && y % 100 != 0) || (y % 400 == 0)

/-- Cumulative day count before month `m` in a non-leap year (`m` is 1-based). -/
def cumDaysBeforeMonth (m : Nat) : Nat :=
  [0, 0, 31, 59, 90, 120, 151, 181, 212, 243, 273, 304, 334].getD m 0

/-- Day number (days since 0001-01-01) of the civil date `y-m-d`,
proleptic Gregorian, matching Python `datetime.date` ordinal arithmetic. -/
def civilDay (y m d : Nat) : Nat :=
  365 * (y - 1) + (y - 1) / 4 - (y - 1) / 100 + (y - 1) / 400
    + cumDaysBeforeMonth m
    + (if 3 ≤ m ∧ isLeap y then 1 else 0)
    + (d - 1)

/-- Timestamp (minutes) of midnight KST on the civil date `y-m-d`;
this is `datetime(y, m, d, tzinfo=KST)`. -/
def civilTs (y m d : Nat) : Nat := civilDay y m d * minutesPerDay

/-- Timestamp of `datetime(y, m, d, h, mi, tzinfo=KST)`. -/
def civilTsAt (y m d h mi : Nat) : Nat := civilTs y m d + h * 60 + mi

/-- Application status, `status IN ('신청','조합승인','가입','종료')`:
`applied` = 신청, `unionApproved` = 조합승인, `active` = 가입,
`expired` = 종료. -/
inductive Status where
  | applied
  | unionApproved
  | active
  | expired
deriving DecidableEq, Repr

/-- Position of a status in the forward order
신청 → 조합승인 → 가입 → 종료. -/
def statusRank : Status → Nat
  | Status.applied => 0
  | Status.unionApproved => 1
  | Status.active => 2
  | Status.expired => 3

/-- Identity of the creating member used by the settlement grouping
(`company_name`, `representative`, `business_number`; string columns,
`or ''` in the source collapses NULL to the empty string). -/
structure Company where
  company_name : String
  representative : String
  business_number : String
deriving DecidableEq, Repr

/-- The `InsuranceApplication` row (the columns the verified logic reads or
writes).  `desired_start_date` is a `Date` column with `nullable=False`, so it
is a plain day number; `start_at`, `end_at`, `approved_at` are nullable
timestamps; `created_by_member_id` is a nullable foreign key and `creator` the
corresponding (possibly missing) `created_by_member` row's identity. -/
structure App where
  status : Status
  desired_start_date : Nat
  start_at : Option Nat
  end_at : Option Nat
  approved_at : Option Nat
  car_plate : String
  vin : String
  car_name : String
  car_registered_at : Option Nat
  insured_code : String
  contractor_code : String
  memo : String
  created_by_member_id : Option Nat
  partner_group_id : Nat
  creator : Option Company
deriving DecidableEq, Repr

/-- `InsuranceApplication.recompute_status` (app.py:626-641), as a pure state
transformer at evaluation instant `now = datetime.now(KST)`.

```
approved_at_local = _ensure_aware(self.approved_at)
end_at_local = _ensure_aware(self.end_at)
if self.status in ('신청', '조합승인'):
    if approved_at_local and now >= approved_at_local + timedelta(hours=2):
        self.status = '가입'
        if not self.start_at:
            start_date = datetime.combine(self.desired_start_date, ..., tzinfo=KST)
            self.start_at = start_date
            self.end_at = start_date + timedelta(days=30)
if end_at_local and now >= end_at_local:
    self.status = '종료'
```

Note that the final expiry check compares `now` against `end_at_local`, the
value of `end_at` captured before the first branch possibly overwrote it.
We split the body into its two blocks: `activate_step` is the first `if`
(approval + 2 hours → 가입, setting the coverage window when `start_at` is
unset), and `expire_step` is the final check against the captured
`end_at_local`. -/
def activate_step (a : App) (now : Nat) : App :=
  if a.status = Status.applied ∨ a.status = Status.unionApproved then
    match a.approved_at with
    | some t =>
      if t + twoHours ≤ now then
        if a.start_at = none then
          { a with status := Status.active
                   start_at := some (a.desired_start_date * minutesPerDay)
                   end_at := some (a.desired_start_date * minutesPerDay + thirtyDays) }
        else
          { a with status := Status.active }
      else a
    | none => a
  else a

/-- The final block of `recompute_status`: `if end_at_local and now >=
end_at_local: self.status = '종료'`, where `end_at_local` is the `end_at`
value captured at entry. -/
def expire_step (endAtLocal : Option Nat) (a1 : App) (now : Nat) : App :=
  match endAtLocal with
  | some e => if e ≤ now then { a1 with status := Status.expired } else a1
  | none => a1

/-- `InsuranceApplication.recompute_status` as a whole: the activation block
followed by the expiry check against the entry value of `end_at`. -/
def recompute_status (a : App) (now : Nat) : App :=
  expire_step a.end_at (activate_step a now) now

/-- Body of the single-application `approve` action of
`partner_admin_insurance_approval` (app.py:5325-5335); the bulk-approve loop
body (app.py:5284-5293) is identical.

```
application.approved_at = now
application.status = '조합승인'
if application.desired_start_date and not application.start_at:
    application.start_at = datetime.combine(application.desired_start_date, ...)
if application.start_at and not application.end_at:
    application.end_at = application.start_at + timedelta(days=30)
```

(`desired_start_date` is non-nullable and a `date` is always truthy.) -/
def partner_approve (a : App) (now : Nat) : App :=
  let a := { a with approved_at := some now, status := Status.unionApproved }
  let a :=
    if a.start_at = none then
      { a with start_at := some (a.desired_start_date * minutesPerDay) }
    else a
  match a.start_at with
  | some s => if a.end_at = none then { a with end_at := some (s + thirtyDays) } else a
  | none => a

/-- Body of the single-row `approve` action of `admin_insurance`
(app.py:6211-6219); the admin bulk-approve loop body (app.py:6182-6189) is
identical.

```
row.approved_at = datetime.now(KST)
row.status = '조합승인'
if not row.start_at:
    start_date_aware = datetime.combine(row.desired_start_date, ..., tzinfo=KST)
    row.start_at = start_date_aware
    row.end_at = start_date_aware + timedelta(days=30)
``` -/
def admin_approve (a : App) (now : Nat) : App :=
  let a := { a with approved_at := some now, status := Status.unionApproved }
  if a.start_at = none then
    { a with start_at := some (a.desired_start_date * minutesPerDay)
             end_at := some (a.desired_start_date * minutesPerDay + thirtyDays) }
  else a

/-- The partner bulk-approve action (app.py:5277-5293): the query selects the
rows of the caller's partner group with `approved_at=None` and the loop applies
the approval body to each; rows outside the selection are untouched. -/
def partner_bulk_approve (apps : List App) (g : Nat) (now : Nat) : List App :=
  apps.map fun a =>
    if a.partner_group_id = g ∧ a.approved_at = none then partner_approve a now else a

/-- The global-admin bulk-approve action (app.py:6173-6189): selects all rows
with `approved_at` NULL (no partner-group filter) and applies the admin
approval body to each. -/
def admin_bulk_approve (apps : List App) (now : Nat) : List App :=
  apps.map fun a => if a.approved_at = none then admin_approve a now else a

/-- Outcome of a delete request on one row. -/
inductive DeleteResult where
  | deleted
  | rejectedWarning
  | skipped
deriving DecidableEq, Repr

/-- The member-path delete in `/insurance` (app.py:2855-2900): only the
creating member may act, and deletion is allowed only while `approved_at` is
unset — otherwise the row is kept and the warning
`'조합승인 후에는 삭제할 수 없습니다.'` is flashed. -/
def insurance_delete (a : App) (uid : Nat) : DeleteResult :=
  if a.created_by_member_id = some uid then
    if a.approved_at = none then DeleteResult.deleted else DeleteResult.rejectedWarning
  else DeleteResult.skipped

/-- The member-path edit form of `/insurance` (app.py:2901-2957), post
parsing: `desired_start_date = none` models an empty form field (the source
updates the vehicle fields only when the posted `desired_start_date` is
non-empty; the memo is always updated). -/
structure MemberEditForm where
  desired_start_date : Option Nat
  car_plate : String
  vin : String
  car_name : String
  car_registered_at : Option Nat
  memo : String
deriving Repr

/-- Field application of the member-path save (inside the permission guard):
vehicle fields update only with a non-empty desired date; memo always. -/
def insurance_save_apply (a : App) (f : MemberEditForm) : App :=
  let a :=
    match f.desired_start_date with
    | some d =>
      { a with desired_start_date := d
               car_plate := f.car_plate
               vin := f.vin
               car_name := f.car_name
               car_registered_at := f.car_registered_at }
    | none => a
  { a with memo := f.memo }

/-- The member-path save in `/insurance` (app.py:2901-2957): requires the
caller to be the creator; when `approved_at` is set the row is left unchanged
and the warning `'조합승인 후에는 수정할 수 없습니다.'` is flashed (the
boolean result). -/
def insurance_save (a : App) (uid : Nat) (f : MemberEditForm) : App × Bool :=
  if a.created_by_member_id = some uid then
    if a.approved_at = none then (insurance_save_apply a f, false) else (a, true)
  else (a, false)

/-- The `delete` action of `partner_admin_insurance_approval`
(app.py:5375-5416): any row of the caller's partner group is deleted, with no
`approved_at` check. -/
def partner_approval_delete (a : App) (g : Nat) : DeleteResult :=
  if a.partner_group_id = g then DeleteResult.deleted else DeleteResult.skipped

/-- The partner-admin edit form (app.py:5418-5428), post parsing; a
well-formed submission carries a parsed desired date (the column is NOT
NULL, so a failed parse cannot be committed). -/
structure PartnerEditForm where
  desired_start_date : Nat
  car_plate : String
  vin : String
  car_name : String
  car_registered_at : Option Nat
  insured_code : String
  contractor_code : String
  memo : String
deriving Repr

/-- The `save` action of `partner_admin_insurance_approval`
(app.py:5418-5470): updates the mutable fields of any row of the caller's
partner group, with no `approved_at` check. -/
def partner_approval_save (a : App) (g : Nat) (f : PartnerEditForm) : App :=
  if a.partner_group_id = g then
    { a with desired_start_date := f.desired_start_date
             car_plate := f.car_plate
             vin := f.vin
             car_name := f.car_name
             car_registered_at := f.car_registered_at
             insured_code := f.insured_code
             contractor_code := f.contractor_code
             memo := f.memo }
  else a

/-- The `delete` action of `admin_insurance` (app.py:6225-6230): deletes the
row with no ownership or `approved_at` check. -/
def admin_insurance_delete (_a : App) : DeleteResult :=
  DeleteResult.deleted

/-- The global-admin edit form (app.py:6237-6251), post parsing: besides the
vehicle fields it can set `start_at` and `end_at` to arbitrary parsed values,
including clearing them (`parse_datetime` of an empty field is `None`). -/
structure AdminEditForm where
  desired_start_date : Nat
  car_plate : String
  vin : String
  car_name : String
  car_registered_at : Option Nat
  start_at : Option Nat
  end_at : Option Nat
  memo : String
deriving Repr

/-- The `save` action of `admin_insurance` (app.py:6237-6261): updates the
fields of any row, including `start_at`/`end_at`, with no `approved_at`
check. -/
def admin_insurance_save (a : App) (f : AdminEditForm) : App :=
  { a with desired_start_date := f.desired_start_date
           car_plate := f.car_plate
           vin := f.vin
           car_name := f.car_name
           car_registered_at := f.car_registered_at
           start_at := f.start_at
           end_at := f.end_at
           memo := f.memo }

/-- `start_period = datetime(year, month, 1, tzinfo=KST)` of the settlement
queries. -/
def monthStartTs (y m : Nat) : Nat := civilTs y m 1

/-- `next_month` of the settlement queries, with the source's explicit branch
on `month == 12`. -/
def nextMonthTs (y m : Nat) : Nat :=
  if m = 12 then civilTs (y + 1) 1 1 else civilTs y (m + 1) 1

/-- The settlement row predicate: `start_at IS NOT NULL AND start_at >=
start_period AND start_at < next_month`. -/
def startInWindow (t1 t2 : Nat) (a : App) : Bool :=
  match a.start_at with
  | some s => decide (t1 ≤ s) && decide (s < t2)
  | none => false

/-- Row selection of `admin_settlement` (app.py:6412-6416) and of
`admin_settlement_overview` without a partner-group filter (app.py:3865-3869):
all applications whose `start_at` lies in `[first-of-month,
first-of-next-month)`. -/
def admin_settlement_rows (apps : List App) (y m : Nat) : List App :=
  apps.filter (startInWindow (monthStartTs y m) (nextMonthTs y m))

/-- Row selection of `partner_admin_settlement` (app.py:5686-5691): the same
`start_at` window, restricted to the caller's partner group. -/
def partner_settlement_rows (apps : List App) (g y m : Nat) : List App :=
  apps.filter fun a =>
    decide (a.partner_group_id = g) && startInWindow (monthStartTs y m) (nextMonthTs y m) a

/-- One aggregation step: locate the entry of key `k` in the association list
(key, count, amount) and increment its count by 1 and its amount by `price`,
appending a fresh `(k, 1, price)` entry when absent.  This is the dictionary
update `counts[key] += 1; amounts[key] += price` shared by the three
settlement loops. -/
def bump {K : Type} [DecidableEq K] :
    List (K × Nat × Nat) → K → Nat → List (K × Nat × Nat)
  | [], k, p => [(k, 1, p)]
  | (k', c, amt) :: rest, k, p =>
    if k = k' then (k', c + 1, amt + p) :: rest
    else (k', c, amt) :: bump rest k p

/-- Fold of the aggregation step over the selected rows: rows whose key is
missing (`none`) are skipped, mirroring the guards on `created_by_member`. -/
def aggregate {K : Type} [DecidableEq K] (key : App → Option K) (price : Nat)
    (rows : List App) : List (K × Nat × Nat) :=
  rows.foldl (fun m r => match key r with | some k => bump m k price | none => m) []

/-- Grouping key of `admin_settlement` (app.py:6419-6426): the creator's
`(company_name, representative, business_number)`, or the `('미상', '', '')`
bucket when `created_by_member` is missing. -/
def adminKey (a : App) : Company :=
  match a.creator with
  | some c => c
  | none => { company_name := "미상", representative := "", business_number := "" }

/-- Per-company aggregation of `admin_settlement` (app.py:6418-6441): every
selected row is counted under `adminKey` and each row adds 9,500 to its
group's amount (`amount = count * 9500`, app.py:6432). -/
def admin_by_company (rows : List App) : List (Company × Nat × Nat) :=
  aggregate (fun a => some (adminKey a)) 9500 rows

/-- Per-company aggregation of `partner_admin_settlement` (app.py:5693-5713):
rows without a `created_by_member` are skipped (`if app.created_by_member:`
has no else branch) and each counted row adds 9,500 (app.py:5713). -/
def partner_by_company (rows : List App) : List (Company × Nat × Nat) :=
  aggregate (fun a => a.creator) 9500 rows

/-- Per-company aggregation of `admin_settlement_overview`
(app.py:3880-3905): rows without a `created_by_member` are skipped, the key is
`(partner_group_id, company_name, representative)` and each counted row adds
95,000 (app.py:3903). -/
def overview_by_company (rows : List App) : List ((Nat × String × String) × Nat × Nat) :=
  aggregate
    (fun a => a.creator.map fun c => (a.partner_group_id, c.company_name, c.representative))
    95000 rows

/-- Per-partner-group totals of `admin_settlement_overview`
(app.py:3904-3905): for each counted row the group's `total_count` gains 1 and
its `total_amount` gains 95,000. -/
def overview_group_totals (rows : List App) : List (Nat × Nat × Nat) :=
  aggregate (fun a => a.creator.map fun _ => a.partner_group_id) 95000 rows

/-- Sum of the per-group counts of an aggregation (the source's
`total_count`). -/
def sumCounts {K : Type} (l : List (K × Nat × Nat)) : Nat :=
  (l.map fun e => e.2.1).sum

/-- Sum of the per-group amounts of an aggregation (the source's
`total_amount`). -/
def sumAmounts {K : Type} (l : List (K × Nat × Nat)) : Nat :=
  (l.map fun e => e.2.2).sum

/-- A `member` row (the columns the verified logic reads): global admins have
`partner_group_id = none`; `approval_status` ∈ {"신청", "승인"}; `role` ∈
{"member", "admin", "partner_admin"}. -/
structure MemberRow where
  id : Nat
  username : String
  partner_group_id : Option Nat
  business_number : String
  role : String
  approval_status : String
deriving DecidableEq, Repr

/-- Outcome of self-registration. -/
inductive RegisterResult where
  | dupUsername
  | dupBusinessNumber
  | created
deriving DecidableEq, Repr

/-- The duplicate checks and row creation of `register` (app.py:2211-2232,
2277-2296): a member with the same `(username, partner_group_id)` pair, or —
when the submitted business number is non-empty — any member with the same
`business_number`, aborts the registration with a duplicate flash and no
insert; otherwise a row with `approval_status='신청'`, `role='member'` is
added. -/
def register (members : List MemberRow) (newId : Nat) (username : String)
    (pgid : Nat) (bn : String) : RegisterResult × List MemberRow :=
  if members.any fun m => m.username == username && m.partner_group_id == some pgid then
    (RegisterResult.dupUsername, members)
  else if (bn != "") && (members.any fun m => m.business_number == bn) then
    (RegisterResult.dupBusinessNumber, members)
  else
    (RegisterResult.created,
      members ++ [{ id := newId, username := username, partner_group_id := some pgid,
                    business_number := bn, role := "member", approval_status := "신청" }])

/-- A `partner_group` row (the uniqueness-relevant columns plus the required
fields of the create form). -/
structure PartnerGroupRow where
  name : String
  business_number : String
  admin_username : String
  representative : String
  phone : String
deriving DecidableEq, Repr

/-- Outcome of partner-group creation. -/
inductive PgCreateResult where
  | missingRequired
  | duplicate
  | created
deriving DecidableEq, Repr

/-- The `create` action of `admin_partner_groups` (app.py:3182-3208): required
fields first (`name`, `business_number`, `representative`, `phone`), then the
duplicate check `name == name OR business_number == business_number OR
admin_username == admin_username` against the existing groups; a collision
flashes a duplicate error and inserts nothing. -/
def admin_partner_groups_create (groups : List PartnerGroupRow) (g : PartnerGroupRow) :
    PgCreateResult × List PartnerGroupRow :=
  if g.name == "" || g.business_number == "" || g.representative == "" || g.phone == "" then
    (PgCreateResult.missingRequired, groups)
  else if groups.any fun x =>
      x.name == g.name || x.business_number == g.business_number
        || x.admin_username == g.admin_username then
    (PgCreateResult.duplicate, groups)
  else
    (PgCreateResult.created, groups ++ [g])

/-- `role` of the caller's member row as stored (`db.session.query(Member.role)
.filter(Member.id == user_id)`), `none` when the row is missing. -/
def dbRole (members : List MemberRow) (uid : Nat) : Option String :=
  (members.find? fun m => m.id == uid).map fun m => m.role

/-- `approval_status` of the caller's member row as stored
(app.py:1236), `none` when the row is missing (the scalar query yields
`None`, which fails the `== '승인'` comparison). -/
def dbApprovalStatus (members : List MemberRow) (uid : Nat) : Option String :=
  (members.find? fun m => m.id == uid).map fun m => m.approval_status

/-- Effective-role resolution of `admin_required` (app.py:1178-1224): the
session-cached `user_role` is used as-is unless it is absent or `'member'`,
in which case the role is (re)loaded from the member row; a missing row is a
failure (`none`). -/
def resolve_role (sessionRole : Option String) (members : List MemberRow)
    (uid : Nat) : Option String :=
  match sessionRole with
  | some r => if r == "member" then dbRole members uid else some r
  | none => dbRole members uid

/-- Outcome of the `admin_required` gate: run the view, or redirect to the
login page with a flashed warning.  Every failure path of the decorator —
missing user, role ≠ 'admin', unapproved member, or a caught exception —
redirects to `login`; no path raises. -/
inductive AuthResult where
  | allow
  | redirectLogin
deriving DecidableEq, Repr

/-- The `admin_required` decorator (app.py:1156-1266): resolve the effective
role (session cache first, storage fallback), require it to be `'admin'`,
then unconditionally read the member row's `approval_status` from storage and
require `'승인'`. -/
def admin_required (sessionRole : Option String) (members : List MemberRow)
    (uid : Nat) : AuthResult :=
  match resolve_role sessionRole members uid with
  | none => AuthResult.redirectLogin
  | some r =>
    if r == "admin" then
      match dbApprovalStatus members uid with
      | some s => if s == "승인" then AuthResult.allow else AuthResult.redirectLogin
      | none => AuthResult.redirectLogin
    else AuthResult.redirectLogin

/-- A baseline application row used by the concrete instances below: a fresh
self-service submission (`status='신청'`, `premium=9500`,
`contractor_code='부산자동차매매사업자조합'`, nothing approved yet). -/
def baseApp : App :=
  { status := Status.applied
    desired_start_date := 0
    start_at := none
    end_at := none
    approved_at := none
    car_plate := ""
    vin := ""
    car_name := ""
    car_registered_at := none
    insured_code := ""
    contractor_code := "부산자동차매매사업자조합"
    memo := ""
    created_by_member_id := none
    partner_group_id := 1
    creator := none }

/-- The §8 scenario application: `desired_start_date = 2024-03-15`, approved
by the partner admin at `2024-03-01T10:00` KST, coverage window not yet
assigned at approval in this variant (legacy row shape with `start_at`
unset). -/
def scenApp : App :=
  { baseApp with
    desired_start_date := civilDay 2024 3 15,
    approved_at := some (civilTsAt 2024 3 1 10 0),
    status := Status.unionApproved }

/-- A sample creating-member identity for settlement instances. -/
def sampleCompany : Company :=
  { company_name := "부산상사", representative := "김대표", business_number := "123-45-67890" }

/-- The §8 scenario row as the approval action leaves it: the coverage window
is assigned at approval time (`start_at = 2024-03-15T00:00`,
`end_at = 2024-04-14T00:00`). -/
def scenApproved : App :=
  { scenApp with
    start_at := some (civilTs 2024 3 15),
    end_at := some (civilTs 2024 4 14) }

/-- `scenApproved` with a different memo (agreeing on every
lifecycle-relevant field). -/
def scenApprovedMemo : App :=
  { scenApproved with memo := "비고" }

/-- A concrete member row used by the duplicate-check instances. -/
def memHong : MemberRow :=
  { id := 1,
    username := "hong",
    partner_group_id := some 1,
    business_number := "111-22-33333",
    role := "member",
    approval_status := "승인" }

/-- A concrete global-admin member row (`partner_group_id = none`,
`role = 'admin'`, approved). -/
def memAdmin : MemberRow :=
  { id := 5,
    username := "admin",
    partner_group_id := none,
    business_number := "",
    role := "admin",
    approval_status := "승인" }

/-- A concrete partner-group row used by the duplicate-check instances. -/
def pgBusan : PartnerGroupRow :=
  { name := "부산조합",
    business_number := "222-33-44444",
    admin_username := "pgadmin",
    representative := "대표",
    phone := "051" }

/-- A creation request colliding with `pgBusan` on the name only. -/
def pgBusanDup : PartnerGroupRow :=
  { name := "부산조합",
    business_number := "555-66-77777",
    admin_username := "other",
    representative := "대표2",
    phone := "02" }

/-- An application approved during March 2024 (`approved_at =
2024-03-20T10:00`) whose coverage start, derived from its desired start date,
falls in April (`start_at = 2024-04-05T00:00`). -/
def aprApp : App :=
  { baseApp with
    status := Status.unionApproved,
    approved_at := some (civilTsAt 2024 3 20 10 0),
    start_at := some (civilTs 2024 4 5),
    end_at := some (civilTs 2024 5 5),
    desired_start_date := civilDay 2024 4 5,
    creator := some sampleCompany }

/-! ## Helper lemmas -/

/-- Replacing the status of a record by its own status is the identity. -/
theorem update_status_self (a : App) (s : Status) (h : a.status = s) :
    { a with status := s } = a := by
  cases a
  simp only at h
  rw [h]

/-- Every status rank is at most the rank of 종료. -/
theorem statusRank_le_expired (s : Status) : statusRank s ≤ statusRank Status.expired := by
  cases s <;> simp [statusRank]

/-- The activation block never touches a row whose `approved_at` is unset. -/
theorem activate_step_of_approved_none (a : App) (now : Nat) (h : a.approved_at = none) :
    activate_step a now = a := by
  unfold activate_step
  split
  · rw [h]
  · rfl

/-- The activation block never touches a 가입 or 종료 row. -/
theorem activate_step_skip (a : App) (now : Nat)
    (h : ¬(a.status = Status.applied ∨ a.status = Status.unionApproved)) :
    activate_step a now = a := by
  unfold activate_step
  rw [if_neg h]

/-! ## Claim C2 -/

/-- Claim C2: for every insurance application with `end_at = T`, evaluating
`recompute_status` at any `now ≥ T` yields status 종료 (expired), regardless
of the prior status and of the other fields — the expiry check runs
unconditionally on every evaluation, as a terminal override. -/
theorem C2_expiry_override (a : App) (now e : Nat)
    (hend : a.end_at = some e) (hle : e ≤ now) :
    (recompute_status a now).status = Status.expired := by
  unfold recompute_status expire_step
  rw [hend]
  simp [hle]

/-- Witness for C2 at a concrete input: an active application whose `end_at`
has just been reached is recomputed to 종료. -/
theorem C2_expiry_override_witness :
    (recompute_status { baseApp with end_at := some 10, status := Status.active } 10).status
      = Status.expired :=
  C2_expiry_override _ 10 10 rfl (by decide)

/-! ## Claim C1 -/

/-- Claim C1 is false as stated: it quantifies over every application with
`approved_at` set and `start_at` unset, but (first conjunct) on a row whose
status is already 가입 — reachable by clearing `start_at`/`end_at` through the
global-admin `save` action after activation — a recomputation past
`approved_at + 2h` leaves `start_at` unset instead of assigning
`midnight(desired_start_date)`, and (second conjunct) on a 조합승인 row with a
stale `end_at` in the past the recomputation ends in 종료, not 가입. -/
theorem C1_counterexample :
    ((recompute_status
        { baseApp with
          status := Status.active,
          approved_at := some 1000,
          desired_start_date := 20000 } 2000).start_at = none)
    ∧ ((recompute_status
        { baseApp with
          status := Status.unionApproved,
          approved_at := some 1000,
          end_at := some 500,
          desired_start_date := 20000 } 2000).status ≠ Status.active) := by
  constructor
  · rfl
  · decide

/-- Claim C1, amended: additionally require the application's status to be
신청 or 조합승인 and its `end_at` to be unset (both hold for every row the
approval flow alone produces).  Then a recomputation strictly before
`approved_at + 2h` changes nothing — in particular the status does not become
가입 — and a recomputation at or after `approved_at + 2h` sets status 가입,
`start_at = midnight(desired_start_date)` and `end_at = start_at + 30 days`. -/
theorem C1_amended (a : App) (t now : Nat)
    (hap : a.approved_at = some t) (hst : a.start_at = none) (hend : a.end_at = none)
    (hs : a.status = Status.applied ∨ a.status = Status.unionApproved) :
    (now < t + twoHours → recompute_status a now = a)
    ∧ (t + twoHours ≤ now →
        (recompute_status a now).status = Status.active
        ∧ (recompute_status a now).start_at = some (a.desired_start_date * minutesPerDay)
        ∧ (recompute_status a now).end_at
            = some (a.desired_start_date * minutesPerDay + thirtyDays)) := by
  constructor
  · intro hlt
    unfold recompute_status expire_step activate_step
    rw [hend, if_pos hs, hap]
    simp [Nat.not_le.mpr hlt]
  · intro hge
    unfold recompute_status expire_step activate_step
    rw [hend, if_pos hs, hap]
    simp [hge, hst]

/-- Witness for C1_amended at the §8 scenario: approval at 2024-03-01T10:00,
desired start 2024-03-15 — at 11:59 nothing changes, at 12:00 the status is
가입 with `start_at = 2024-03-15T00:00` and `end_at = 2024-04-14T00:00`. -/
theorem C1_amended_witness :
    (recompute_status scenApp (civilTsAt 2024 3 1 11 59) = scenApp)
    ∧ ((recompute_status scenApp (civilTsAt 2024 3 1 12 0)).status = Status.active
        ∧ (recompute_status scenApp (civilTsAt 2024 3 1 12 0)).start_at
            = some (civilTs 2024 3 15)
        ∧ (recompute_status scenApp (civilTsAt 2024 3 1 12 0)).end_at
            = some (civilTs 2024 4 14)) := by
  have h1 := C1_amended scenApp (civilTsAt 2024 3 1 10 0) (civilTsAt 2024 3 1 11 59)
    rfl rfl rfl (Or.inr rfl)
  have h2 := C1_amended scenApp (civilTsAt 2024 3 1 10 0) (civilTsAt 2024 3 1 12 0)
    rfl rfl rfl (Or.inr rfl)
  refine ⟨h1.1 (by decide), ?_⟩
  have h3 := h2.2 (by decide)
  refine ⟨h3.1, h3.2.1, ?_⟩
  rw [h3.2.2]
  decide

/-! ## Claim C3 -/

/-- The activation block never lowers the status rank. -/
theorem activate_step_rank (a : App) (now : Nat) :
    statusRank a.status ≤ statusRank (activate_step a now).status := by
  unfold activate_step
  split
  · rename_i h
    cases hap : a.approved_at
    · simp
    · rcases h with h | h <;>
        simp only [h, statusRank] <;> split_ifs <;> simp [h, statusRank]
  · simp

/-- The expiry block never lowers the status rank. -/
theorem expire_step_rank (eo : Option Nat) (a1 : App) (now : Nat) :
    statusRank a1.status ≤ statusRank (expire_step eo a1 now).status := by
  cases eo with
  | none => simp [expire_step]
  | some e =>
    by_cases he : e ≤ now
    · simpa [expire_step, he] using statusRank_le_expired a1.status
    · simp [expire_step, he]

/-- `recompute_status` never moves the status backward in the order
신청 → 조합승인 → 가입 → 종료. -/
theorem recompute_status_rank_mono (a : App) (now : Nat) :
    statusRank a.status ≤ statusRank (recompute_status a now).status :=
  Nat.le_trans (activate_step_rank a now) (expire_step_rank a.end_at (activate_step a now) now)

/-! ## Claim C3 proofs -/

theorem recompute_status_congr (a b : App) (now : Nat)
    (h1 : a.status = b.status) (h2 : a.approved_at = b.approved_at)
    (h3 : a.start_at = b.start_at) (h4 : a.end_at = b.end_at)
    (h5 : a.desired_start_date = b.desired_start_date) :
    (recompute_status a now).status = (recompute_status b now).status
    ∧ (recompute_status a now).start_at = (recompute_status b now).start_at
    ∧ (recompute_status a now).end_at = (recompute_status b now).end_at := by
  obtain ⟨st, d, sa, ea, ap, cp, vi, cn, cr, ic, cc, mm, cb, pg, crt⟩ := a
  obtain ⟨st2, d2, sa2, ea2, ap2, cp2, vi2, cn2, cr2, ic2, cc2, mm2, cb2, pg2, crt2⟩ := b
  have e1 : st = st2 := h1
  have e2 : ap = ap2 := h2
  have e3 : sa = sa2 := h3
  have e4 : ea = ea2 := h4
  have e5 : d = d2 := h5
  subst e1 e2 e3 e4 e5
  cases st <;> rcases ap with _ | t <;> rcases ea with _ | e <;> rcases sa with _ | s <;>
    simp [recompute_status, activate_step, expire_step] <;>
    split_ifs <;> simp_all

theorem expire_step_lt (e : Nat) (b : App) (now : Nat) (h : ¬e ≤ now) :
    expire_step (some e) b now = b := by
  simp only [expire_step, if_neg h]

theorem expire_step_ge (e : Nat) (b : App) (now : Nat) (h : e ≤ now) :
    expire_step (some e) b now = { b with status := Status.expired } := by
  simp only [expire_step, if_pos h]

/-- Under the invariant that an unapproved coverage window is never pending
(`start_at = none → approved_at = none`), the activation block either changes
nothing or changes only the status, to 가입. -/
theorem activate_step_cases (a : App) (now : Nat)
    (hsafe : a.start_at = none → a.approved_at = none) :
    activate_step a now = a ∨ activate_step a now = { a with status := Status.active } := by
  rcases hst : a.start_at with _ | s
  · exact Or.inl (activate_step_of_approved_none a now (hsafe hst))
  · by_cases hc : a.status = Status.applied ∨ a.status = Status.unionApproved
    · rcases hap : a.approved_at with _ | t
      · exact Or.inl (activate_step_of_approved_none a now hap)
      · by_cases ht : t + twoHours ≤ now
        · refine Or.inr ?_
          simp only [activate_step, if_pos hc, hap, if_pos ht, hst]
          simp
        · refine Or.inl ?_
          simp only [activate_step, if_pos hc, hap, if_neg ht]
    · exact Or.inl (activate_step_skip a now hc)

/-- A 종료 row whose `end_at` has passed is a fixed point of
`recompute_status`. -/
theorem recompute_status_of_expired (b : App) (now e : Nat)
    (hb : b.status = Status.expired) (hbe : b.end_at = some e) (he : e ≤ now) :
    recompute_status b now = b := by
  unfold recompute_status
  rw [activate_step_skip b now (by simp [hb]), hbe, expire_step_ge e b now he,
    update_status_self b _ hb]

set_option maxHeartbeats 1000000 in
/-- Under the invariant `start_at = none → approved_at = none` — which holds
for every row produced by the approval flow, since approval assigns
`start_at` together with `approved_at` — `recompute_status` is idempotent. -/
theorem recompute_status_idem (a : App) (now : Nat)
    (hsafe : a.start_at = none → a.approved_at = none) :
    recompute_status (recompute_status a now) now = recompute_status a now := by
  rcases activate_step_cases a now hsafe with h1 | h1
  · rcases hend : a.end_at with _ | e
    · have hr : recompute_status a now = a := by
        unfold recompute_status
        rw [h1, hend]
        rfl
      rw [hr, hr]
    · by_cases he : e ≤ now
      · have hr : recompute_status a now = { a with status := Status.expired } := by
          unfold recompute_status
          rw [h1, hend, expire_step_ge e a now he]
          simp [hend]
        rw [hr]
        exact recompute_status_of_expired _ now e rfl hend he
      · have hr : recompute_status a now = a := by
          unfold recompute_status
          rw [h1, hend, expire_step_lt e a now he]
        rw [hr, hr]
  · rcases hend : a.end_at with _ | e
    · have hr : recompute_status a now = { a with status := Status.active } := by
        unfold recompute_status
        rw [h1, hend]
        rfl
      rw [hr]
      unfold recompute_status
      rw [activate_step_skip _ now (by simp)]
      have h3 : ({ a with status := Status.active } : App).end_at = none := hend
      rw [h3]
      rfl
    · by_cases he : e ≤ now
      · have hr : recompute_status a now = { a with status := Status.expired } := by
          unfold recompute_status
          rw [h1, hend, expire_step_ge e _ now he]
        rw [hr]
        exact recompute_status_of_expired _ now e rfl hend he
      · have hr : recompute_status a now = { a with status := Status.active } := by
          unfold recompute_status
          rw [h1, hend, expire_step_lt e _ now he]
        rw [hr]
        unfold recompute_status
        rw [activate_step_skip _ now (by simp)]
        have h3 : ({ a with status := Status.active } : App).end_at = some e := hend
        rw [h3, expire_step_lt e _ now he]

/-- Claim C3 is false as stated, at a concrete application with
`approved_at = 0`, `start_at`/`end_at` unset and `desired_start_date` on day 0,
evaluated at `now = 50000` minutes (past both `approved_at + 2h` and
`midnight(desired) + 30d`): running `recompute_status` once yields 가입 with a
freshly assigned, already-past `end_at`, and running it a second time flips
the status to 종료 — recomputing twice does not equal recomputing once; and a
second application agreeing with the first on
`{approved_at, start_at, end_at}` but in status 종료 recomputes to a
different status at the same `now`, so the status is not derivable from
`{approved_at, start_at, end_at, now}` alone. -/
theorem C3_counterexample :
    (recompute_status (recompute_status { baseApp with approved_at := some 0 } 50000) 50000
        ≠ recompute_status { baseApp with approved_at := some 0 } 50000)
    ∧ (({ baseApp with approved_at := some 0, status := Status.expired } : App).approved_at
          = ({ baseApp with approved_at := some 0 } : App).approved_at
        ∧ ({ baseApp with approved_at := some 0, status := Status.expired } : App).start_at
          = ({ baseApp with approved_at := some 0 } : App).start_at
        ∧ ({ baseApp with approved_at := some 0, status := Status.expired } : App).end_at
          = ({ baseApp with approved_at := some 0 } : App).end_at
        ∧ (recompute_status { baseApp with approved_at := some 0, status := Status.expired } 50000).status
          ≠ (recompute_status { baseApp with approved_at := some 0 } 50000).status) := by
  refine ⟨by decide, rfl, rfl, rfl, by decide⟩

/-- Claim C3, amended: no recomputation ever moves the status backward in the
order 신청 → 조합승인 → 가입 → 종료; the recomputed
`{status, start_at, end_at}` is a pure function of
`{status, approved_at, start_at, end_at, desired_start_date, now}` (the prior
status and the desired start date are genuinely needed, unlike the claim's
four-element set); and recomputation is idempotent on every state satisfying
`start_at = none → approved_at = none` — which every row of the approval flow
satisfies, approval assigning `start_at` together with `approved_at` — though
not on the legacy states excluded by that proviso, as the counterexample
shows. -/
theorem C3_amended (a b : App) (now : Nat)
    (hagree : a.status = b.status ∧ a.approved_at = b.approved_at
      ∧ a.start_at = b.start_at ∧ a.end_at = b.end_at
      ∧ a.desired_start_date = b.desired_start_date)
    (hsafe : a.start_at = none → a.approved_at = none) :
    statusRank a.status ≤ statusRank (recompute_status a now).status
    ∧ recompute_status (recompute_status a now) now = recompute_status a now
    ∧ ((recompute_status a now).status = (recompute_status b now).status
        ∧ (recompute_status a now).start_at = (recompute_status b now).start_at
        ∧ (recompute_status a now).end_at = (recompute_status b now).end_at) :=
  ⟨recompute_status_rank_mono a now,
   recompute_status_idem a now hsafe,
   recompute_status_congr a b now hagree.1 hagree.2.1 hagree.2.2.1 hagree.2.2.2.1
     hagree.2.2.2.2⟩

/-- Witness for C3_amended at a concrete input: the §8 scenario row as the
approval action leaves it (coverage window assigned at approval), compared
with a copy of itself carrying a different memo, evaluated after the
activation threshold. -/
theorem C3_amended_witness :
    statusRank scenApproved.status
        ≤ statusRank (recompute_status scenApproved (civilTsAt 2024 3 1 12 0)).status
    ∧ recompute_status (recompute_status scenApproved (civilTsAt 2024 3 1 12 0))
          (civilTsAt 2024 3 1 12 0)
        = recompute_status scenApproved (civilTsAt 2024 3 1 12 0)
    ∧ ((recompute_status scenApproved (civilTsAt 2024 3 1 12 0)).status
          = (recompute_status scenApprovedMemo (civilTsAt 2024 3 1 12 0)).status
        ∧ (recompute_status scenApproved (civilTsAt 2024 3 1 12 0)).start_at
          = (recompute_status scenApprovedMemo (civilTsAt 2024 3 1 12 0)).start_at
        ∧ (recompute_status scenApproved (civilTsAt 2024 3 1 12 0)).end_at
          = (recompute_status scenApprovedMemo (civilTsAt 2024 3 1 12 0)).end_at) :=
  C3_amended scenApproved scenApprovedMemo (civilTsAt 2024 3 1 12 0)
    ⟨rfl, rfl, rfl, rfl, rfl⟩ (fun h => Option.noConfusion h)

/-! ## Claims C4 and C10 -/

/-- Both single-approve bodies unconditionally stamp `approved_at := now`. -/
theorem partner_approve_approved_at (a : App) (now : Nat) :
    (partner_approve a now).approved_at = some now := by
  rcases hst : a.start_at with _ | s <;>
    simp [partner_approve, hst] <;> split_ifs <;> rfl

/-- `admin_approve` unconditionally stamps `approved_at := now`. -/
theorem admin_approve_approved_at (a : App) (now : Nat) :
    (admin_approve a now).approved_at = some now := by
  rcases hst : a.start_at with _ | s <;> simp [admin_approve, hst]

/-- The partner approve body does not change the partner group of the row. -/
theorem partner_approve_partner_group_id (a : App) (now : Nat) :
    (partner_approve a now).partner_group_id = a.partner_group_id := by
  rcases hst : a.start_at with _ | s <;>
    simp [partner_approve, hst] <;> split_ifs <;> rfl

/-- The partner bulk-approve action is idempotent: its query selects only
rows with `approved_at` unset, and the first pass stamps every selected row,
so a second pass selects nothing. -/
theorem partner_bulk_approve_idem (apps : List App) (g n1 n2 : Nat) :
    partner_bulk_approve (partner_bulk_approve apps g n1) g n2
      = partner_bulk_approve apps g n1 := by
  unfold partner_bulk_approve
  rw [List.map_map]
  have hfix : ∀ a : App,
      (if (partner_approve a n1).partner_group_id = g ∧ (partner_approve a n1).approved_at = none
        then partner_approve (partner_approve a n1) n2 else partner_approve a n1)
        = partner_approve a n1 := by
    intro a
    rw [if_neg]
    intro hcon
    rw [partner_approve_approved_at a n1] at hcon
    exact Option.noConfusion hcon.2
  apply List.map_congr_left
  intro a _
  by_cases hc : a.partner_group_id = g ∧ a.approved_at = none
  · simpa [Function.comp, hc] using hfix a
  · simp [Function.comp, hc]

/-- The admin bulk-approve action is idempotent for the same reason. -/
theorem admin_bulk_approve_idem (apps : List App) (n1 n2 : Nat) :
    admin_bulk_approve (admin_bulk_approve apps n1) n2 = admin_bulk_approve apps n1 := by
  unfold admin_bulk_approve
  rw [List.map_map]
  apply List.map_congr_left
  intro a _
  by_cases hc : a.approved_at = none
  · simp [Function.comp, hc, admin_approve_approved_at]
  · simp [Function.comp, hc]

/-- Claim C4 is false as stated: re-running the single-application approve on
an already-approved row (here `approved_at = 100`) is not a no-op — in both
the partner-admin and the global-admin handler it overwrites `approved_at`
with the new time 200. -/
theorem C4_counterexample :
    (({ baseApp with approved_at := some 100 } : App).approved_at = some 100)
    ∧ (partner_approve { baseApp with approved_at := some 100 } 200).approved_at ≠ some 100
    ∧ (admin_approve { baseApp with approved_at := some 100 } 200).approved_at ≠ some 100 := by
  exact ⟨rfl, by decide, by decide⟩

/-- Claim C4, amended: the bulk-approve actions are idempotent (their
selection excludes already-approved rows), but the single-application approve
sets `approved_at := now` unconditionally; re-approving changes `approved_at`
(and resets the status to 조합승인) while leaving an already-assigned
coverage window `start_at`/`end_at` untouched. -/
theorem C4_amended (apps : List App) (g n1 n2 : Nat) (a : App) (now : Nat) :
    partner_bulk_approve (partner_bulk_approve apps g n1) g n2
        = partner_bulk_approve apps g n1
    ∧ admin_bulk_approve (admin_bulk_approve apps n1) n2 = admin_bulk_approve apps n1
    ∧ (partner_approve a now).approved_at = some now
    ∧ (admin_approve a now).approved_at = some now
    ∧ (partner_approve a now).status = Status.unionApproved
    ∧ (admin_approve a now).status = Status.unionApproved
    ∧ (a.start_at ≠ none →
        (partner_approve a now).start_at = a.start_at
        ∧ (admin_approve a now).start_at = a.start_at
        ∧ (admin_approve a now).end_at = a.end_at)
    ∧ (a.start_at ≠ none → a.end_at ≠ none →
        (partner_approve a now).end_at = a.end_at) := by
  refine ⟨partner_bulk_approve_idem apps g n1 n2, admin_bulk_approve_idem apps n1 n2,
    partner_approve_approved_at a now, admin_approve_approved_at a now, ?_, ?_, ?_, ?_⟩
  · rcases hst : a.start_at with _ | s <;>
      simp [partner_approve, hst] <;> split_ifs <;> rfl
  · rcases hst : a.start_at with _ | s <;> simp [admin_approve, hst]
  · intro hne
    rcases hst : a.start_at with _ | s
    · exact absurd hst hne
    · refine ⟨?_, ?_, ?_⟩
      · simp [partner_approve, hst]
        split_ifs <;> rfl
      · simp [admin_approve, hst]
      · simp [admin_approve, hst]
  · intro hne hend
    rcases hst : a.start_at with _ | s
    · exact absurd hst hne
    · rcases hend2 : a.end_at with _ | e
      · exact absurd hend2 hend
      · simp [partner_approve, hst, hend2]

/-- Witness for C4_amended at a concrete input: a fully approved row with an
assigned window, re-approved at time 777. -/
theorem C4_amended_witness :
    partner_bulk_approve (partner_bulk_approve [baseApp] 1 10) 1 20
        = partner_bulk_approve [baseApp] 1 10
    ∧ (partner_approve scenApproved 777).approved_at = some 777
    ∧ (partner_approve scenApproved 777).start_at = scenApproved.start_at
    ∧ (partner_approve scenApproved 777).end_at = scenApproved.end_at := by
  have h := C4_amended [baseApp] 1 10 20 scenApproved 777
  exact ⟨h.1, h.2.2.1, (h.2.2.2.2.2.2.1 (by decide)).1,
    h.2.2.2.2.2.2.2 (by decide) (by decide)⟩

/-- Claim C10 is false as stated for the partner-admin approve body: on a row
with `start_at` unset but `end_at` already set (reachable through the
global-admin edit form, which can clear `start_at` while keeping `end_at`),
approval assigns `start_at = midnight(desired_start_date)` but keeps the old
`end_at`, so `end_at ≠ start_at + 30 days`. -/
theorem C10_counterexample :
    (({ baseApp with end_at := some 7, desired_start_date := 20000 } : App).start_at = none)
    ∧ (partner_approve { baseApp with end_at := some 7, desired_start_date := 20000 }
        100).start_at = some (20000 * minutesPerDay)
    ∧ (partner_approve { baseApp with end_at := some 7, desired_start_date := 20000 }
        100).end_at = some 7
    ∧ (some 7 : Option Nat) ≠ some (20000 * minutesPerDay + thirtyDays) := by
  refine ⟨rfl, rfl, rfl, by decide⟩

/-- Claim C10, amended: immediately after a successful approval of a row with
both `start_at` and `end_at` unset (the shape every pending submission has),
the row has `approved_at = now`, `start_at = midnight(desired_start_date)`,
`end_at = start_at + 30 days` and status 조합승인 — in both handlers and in
the bulk bodies, which reuse the same assignments; the global-admin body needs
only `start_at` unset, as it overwrites `end_at` unconditionally in that
case. -/
theorem C10_amended (a : App) (now : Nat) :
    (a.start_at = none → a.end_at = none →
      partner_approve a now
        = { a with
            approved_at := some now,
            status := Status.unionApproved,
            start_at := some (a.desired_start_date * minutesPerDay),
            end_at := some (a.desired_start_date * minutesPerDay + thirtyDays) })
    ∧ (a.start_at = none →
      admin_approve a now
        = { a with
            approved_at := some now,
            status := Status.unionApproved,
            start_at := some (a.desired_start_date * minutesPerDay),
            end_at := some (a.desired_start_date * minutesPerDay + thirtyDays) }) := by
  constructor
  · intro hst hend
    simp [partner_approve, hst, hend]
  · intro hst
    simp [admin_approve, hst]

/-- Witness for C10_amended at a concrete input: approving the fresh §8
scenario submission at 2024-03-01T10:00 assigns the 2024-03-15 → 2024-04-14
window. -/
theorem C10_amended_witness :
    partner_approve { scenApp with approved_at := none, status := Status.applied }
        (civilTsAt 2024 3 1 10 0)
      = { scenApp with
          approved_at := some (civilTsAt 2024 3 1 10 0),
          status := Status.unionApproved,
          start_at := some (civilTs 2024 3 15),
          end_at := some (civilTs 2024 3 15 + thirtyDays) } :=
  (C10_amended { scenApp with approved_at := none, status := Status.applied }
    (civilTsAt 2024 3 1 10 0)).1 rfl rfl

/-! ## Claim C5 -/

/-- Claim C5: once `approved_at` is set, the member path of `/insurance`
rejects both edit and delete, leaving the row unchanged and flashing the
조합승인-lock warning, while the partner-admin approval screen and the
global-admin screen can still delete the row and their edit forms still take
effect (the admin override paths perform no `approved_at` check). -/
theorem C5_post_approval_lock (a : App) (uid g t : Nat) (f : MemberEditForm)
    (fp : PartnerEditForm) (fa : AdminEditForm)
    (hap : a.approved_at = some t) (hown : a.created_by_member_id = some uid)
    (hg : a.partner_group_id = g) :
    insurance_save a uid f = (a, true)
    ∧ insurance_delete a uid = DeleteResult.rejectedWarning
    ∧ partner_approval_delete a g = DeleteResult.deleted
    ∧ admin_insurance_delete a = DeleteResult.deleted
    ∧ (partner_approval_save a g fp).memo = fp.memo
    ∧ (partner_approval_save a g fp).car_plate = fp.car_plate
    ∧ (admin_insurance_save a fa).memo = fa.memo
    ∧ (admin_insurance_save a fa).car_plate = fa.car_plate := by
  refine ⟨?_, ?_, ?_, rfl, ?_, ?_, rfl, rfl⟩
  · simp [insurance_save, hown, hap]
  · simp [insurance_delete, hown, hap]
  · simp [partner_approval_delete, hg]
  · simp [partner_approval_save, hg]
  · simp [partner_approval_save, hg]

/-- Witness for C5 at a concrete input: the approved §8 scenario row, owned
by member 9 in partner group 1, with concrete edit forms. -/
theorem C5_post_approval_lock_witness :
    insurance_save { scenApproved with created_by_member_id := some 9 } 9
        { desired_start_date := none, car_plate := "", vin := "", car_name := "",
          car_registered_at := none, memo := "새 비고" }
      = ({ scenApproved with created_by_member_id := some 9 }, true)
    ∧ insurance_delete { scenApproved with created_by_member_id := some 9 } 9
      = DeleteResult.rejectedWarning
    ∧ partner_approval_delete { scenApproved with created_by_member_id := some 9 } 1
      = DeleteResult.deleted
    ∧ (admin_insurance_save { scenApproved with created_by_member_id := some 9 }
        { desired_start_date := 0, car_plate := "12가3456", vin := "", car_name := "",
          car_registered_at := none, start_at := none, end_at := none,
          memo := "수정" }).memo = "수정" := by
  have h := C5_post_approval_lock { scenApproved with created_by_member_id := some 9 } 9 1
    (civilTsAt 2024 3 1 10 0)
    { desired_start_date := none, car_plate := "", vin := "", car_name := "",
      car_registered_at := none, memo := "새 비고" }
    { desired_start_date := 0, car_plate := "", vin := "", car_name := "",
      car_registered_at := none, insured_code := "", contractor_code := "", memo := "" }
    { desired_start_date := 0, car_plate := "12가3456", vin := "", car_name := "",
      car_registered_at := none, start_at := none, end_at := none, memo := "수정" }
    rfl rfl rfl
  exact ⟨h.1, h.2.1, h.2.2.1, h.2.2.2.2.2.2.1⟩

/-! ## Claims C6 and C7 -/

/-- The settlement row predicate holds exactly when `start_at` is non-null
and lies in the queried window. -/
theorem startInWindow_iff (t1 t2 : Nat) (a : App) :
    startInWindow t1 t2 a = true ↔ ∃ s, a.start_at = some s ∧ t1 ≤ s ∧ s < t2 := by
  rcases hst : a.start_at with _ | s <;> simp [startInWindow, hst]

/-- One aggregation step adds exactly one to the total count. -/
theorem sumCounts_bump {K : Type} [DecidableEq K] (m : List (K × Nat × Nat)) (k : K)
    (p : Nat) : sumCounts (bump m k p) = sumCounts m + 1 := by
  induction m with
  | nil => simp [bump, sumCounts]
  | cons hd tl ih =>
    obtain ⟨k2, c, amt⟩ := hd
    by_cases hk : k = k2 <;> simp [bump, hk, sumCounts] at ih ⊢ <;> omega

/-- Folding the aggregation step over rows whose key is always present adds
the number of rows to the total count. -/
theorem sumCounts_aggregate_total {K : Type} [DecidableEq K] (key : App → K) (p : Nat)
    (rows : List App) :
    sumCounts (aggregate (fun a => some (key a)) p rows) = rows.length := by
  unfold aggregate
  suffices h : ∀ m : List (K × Nat × Nat),
      sumCounts (rows.foldl (fun m r =>
        match some (key r) with | some k => bump m k p | none => m) m)
        = sumCounts m + rows.length by
    simpa [sumCounts] using h []
  induction rows with
  | nil => intro m; simp
  | cons r rs ih =>
    intro m
    simp only [List.foldl_cons, List.length_cons]
    rw [ih (bump m (key r) p), sumCounts_bump]
    omega

/-- One aggregation step preserves the invariant `amount = count * price`. -/
theorem bump_amount {K : Type} [DecidableEq K] (m : List (K × Nat × Nat)) (k : K)
    (p : Nat) (h : ∀ e ∈ m, e.2.2 = e.2.1 * p) :
    ∀ e ∈ bump m k p, e.2.2 = e.2.1 * p := by
  induction m with
  | nil =>
    intro e he
    simp [bump] at he
    simp [he]
  | cons hd tl ih =>
    obtain ⟨k2, c, amt⟩ := hd
    intro e he
    by_cases hk : k = k2
    · rw [bump, if_pos hk] at he
      rcases List.mem_cons.mp he with rfl | htl
      · have hh := h (k2, c, amt) (List.mem_cons_self _ _)
        simp at hh ⊢
        rw [hh, Nat.add_mul, Nat.one_mul]
      · exact h _ (List.mem_cons_of_mem _ htl)
    · rw [bump, if_neg hk] at he
      rcases List.mem_cons.mp he with rfl | htl
      · exact h _ (List.mem_cons_self _ _)
      · exact ih (fun e2 he2 => h e2 (List.mem_cons_of_mem _ he2)) _ htl

/-- Every entry of an aggregation satisfies `amount = count * price`. -/
theorem aggregate_amount {K : Type} [DecidableEq K] (key : App → Option K) (p : Nat)
    (rows : List App) : ∀ e ∈ aggregate key p rows, e.2.2 = e.2.1 * p := by
  unfold aggregate
  suffices h : ∀ m : List (K × Nat × Nat), (∀ e ∈ m, e.2.2 = e.2.1 * p) →
      ∀ e ∈ rows.foldl (fun m r => match key r with | some k => bump m k p | none => m) m,
        e.2.2 = e.2.1 * p by
    exact h [] (by simp)
  induction rows with
  | nil => intro m hm; simpa using hm
  | cons r rs ih =>
    intro m hm
    simp only [List.foldl_cons]
    rcases hk : key r with _ | k
    · simpa [hk] using ih m hm
    · simpa [hk] using ih (bump m k p) (bump_amount m k p hm)

/-- Claim C6: the settlement selections (global-admin and partner views)
contain exactly the applications whose `start_at` is non-null and lies in
`[first-of-month, first-of-next-month)` (the partner view additionally
restricted to the caller's group); every selected row is counted in the
global-admin totals (the creator-less ones in the '미상' bucket); and the
concrete application approved on 2024-03-20 with `start_at = 2024-04-05` is
excluded from March's selection and totals and included in April's. -/
theorem C6_settlement_window (apps : List App) (g y m : Nat) (a : App) :
    (a ∈ admin_settlement_rows apps y m ↔
      a ∈ apps ∧ ∃ s, a.start_at = some s ∧ monthStartTs y m ≤ s ∧ s < nextMonthTs y m)
    ∧ (a ∈ partner_settlement_rows apps g y m ↔
      a ∈ apps ∧ a.partner_group_id = g
        ∧ ∃ s, a.start_at = some s ∧ monthStartTs y m ≤ s ∧ s < nextMonthTs y m)
    ∧ sumCounts (admin_by_company (admin_settlement_rows apps y m))
        = (admin_settlement_rows apps y m).length
    ∧ (aprApp ∉ admin_settlement_rows [aprApp] 2024 3
        ∧ aprApp ∈ admin_settlement_rows [aprApp] 2024 4
        ∧ sumCounts (admin_by_company (admin_settlement_rows [aprApp] 2024 3)) = 0
        ∧ sumCounts (admin_by_company (admin_settlement_rows [aprApp] 2024 4)) = 1) := by
  refine ⟨?_, ?_, ?_, by decide, by decide, by decide, by decide⟩
  · rw [admin_settlement_rows, List.mem_filter, startInWindow_iff]
  · rw [partner_settlement_rows, List.mem_filter]
    simp [startInWindow_iff, and_assoc]
  · exact sumCounts_aggregate_total adminKey 9500 (admin_settlement_rows apps y m)

/-- Claim C7 is false as stated: the global-admin monthly settlement view
(`admin_settlement`) adds 9,500 per application, not 95,000 — aggregating a
single application yields the entry `(creator, count 1, amount 9500)`, and
`9500 ≠ 1 × 95000`. -/
theorem C7_counterexample :
    admin_by_company [{ baseApp with creator := some sampleCompany }]
      = [(sampleCompany, 1, 9500)]
    ∧ (9500 : Nat) ≠ 1 * 95000 := by
  refine ⟨rfl, by decide⟩

/-- Claim C7, amended: every settlement group's amount is its count times a
fixed unit price, but the 95,000 multiplier belongs only to the global-admin
settlement-overview view (per company and per group); both the partner
settlement view and the global-admin monthly settlement view multiply by
9,500. -/
theorem C7_amended (rows : List App) :
    (∀ e ∈ overview_by_company rows, e.2.2 = e.2.1 * 95000)
    ∧ (∀ e ∈ overview_group_totals rows, e.2.2 = e.2.1 * 95000)
    ∧ (∀ e ∈ admin_by_company rows, e.2.2 = e.2.1 * 9500)
    ∧ (∀ e ∈ partner_by_company rows, e.2.2 = e.2.1 * 9500) :=
  ⟨aggregate_amount _ 95000 rows, aggregate_amount _ 95000 rows,
   aggregate_amount _ 9500 rows, aggregate_amount _ 9500 rows⟩

/-- Witness for C7_amended at a concrete input: the single entry of each
single-row aggregation of `aprApp` satisfies its view's multiplier. -/
theorem C7_amended_witness :
    ((((1, "부산상사", "김대표") : Nat × String × String), 1, 95000)
        : (Nat × String × String) × Nat × Nat).2.2
      = ((((1, "부산상사", "김대표") : Nat × String × String), 1, 95000)
          : (Nat × String × String) × Nat × Nat).2.1 * 95000
    ∧ (((sampleCompany, 1, 9500)) : Company × Nat × Nat).2.2
      = (((sampleCompany, 1, 9500)) : Company × Nat × Nat).2.1 * 9500
    ∧ (((sampleCompany, 1, 9500)) : Company × Nat × Nat).2.2
      = (((sampleCompany, 1, 9500)) : Company × Nat × Nat).2.1 * 9500 :=
  ⟨(C7_amended [aprApp]).1 _ (by decide),
   (C7_amended [aprApp]).2.2.1 _ (by decide),
   (C7_amended [aprApp]).2.2.2 _ (by decide)⟩

/-- Witness for C6_settlement_window at a concrete input: the membership
characterization places `aprApp` in April 2024's selection. -/
theorem C6_settlement_window_witness :
    aprApp ∈ admin_settlement_rows [aprApp] 2024 4 :=
  ((C6_settlement_window [aprApp] 1 2024 4 aprApp).1).mpr
    ⟨by decide, civilTs 2024 4 5, rfl, by decide, by decide⟩

/-! ## Claim C8 -/

/-- Claim C8: creating a member whose `(username, partner_group_id)` pair
already exists fails with the duplicate-username error and inserts nothing;
creating one whose non-empty business number is already registered fails with
a duplicate error and inserts nothing; and creating a partner group whose
name, business number or admin username collides with an existing group fails
with the duplicate error and inserts nothing. -/
theorem C8_duplicate_checks (members : List MemberRow) (newId : Nat) (u : String)
    (g : Nat) (bn : String) (groups : List PartnerGroupRow) (gnew : PartnerGroupRow) :
    ((∃ m ∈ members, m.username = u ∧ m.partner_group_id = some g) →
      register members newId u g bn = (RegisterResult.dupUsername, members))
    ∧ (bn ≠ "" → (∃ m ∈ members, m.business_number = bn) →
      ((register members newId u g bn).1 = RegisterResult.dupUsername
        ∨ (register members newId u g bn).1 = RegisterResult.dupBusinessNumber)
      ∧ (register members newId u g bn).2 = members)
    ∧ (gnew.name ≠ "" → gnew.business_number ≠ "" → gnew.representative ≠ "" →
        gnew.phone ≠ "" →
      (∃ x ∈ groups, x.name = gnew.name ∨ x.business_number = gnew.business_number
        ∨ x.admin_username = gnew.admin_username) →
      admin_partner_groups_create groups gnew = (PgCreateResult.duplicate, groups)) := by
  refine ⟨?_, ?_, ?_⟩
  · rintro ⟨m, hm, hu, hg⟩
    have hany : (members.any fun m => m.username == u && m.partner_group_id == some g)
        = true := by
      rw [List.any_eq_true]
      exact ⟨m, hm, by simp [hu, hg]⟩
    rw [register, if_pos hany]
  · intro hbn hex
    rw [register]
    split_ifs with h1 h2
    · exact ⟨Or.inl rfl, rfl⟩
    · exact ⟨Or.inr rfl, rfl⟩
    · exfalso
      apply h2
      obtain ⟨m, hm, hb⟩ := hex
      rw [Bool.and_eq_true]
      refine ⟨by simpa using hbn, ?_⟩
      rw [List.any_eq_true]
      exact ⟨m, hm, by simp [hb]⟩
  · intro h1 h2 h3 h4 hex
    have hreq : (gnew.name == "" || gnew.business_number == ""
        || gnew.representative == "" || gnew.phone == "") = false := by
      simp [h1, h2, h3, h4]
    have hany : (groups.any fun x => x.name == gnew.name
        || x.business_number == gnew.business_number
        || x.admin_username == gnew.admin_username) = true := by
      rw [List.any_eq_true]
      obtain ⟨x, hx, hcol⟩ := hex
      refine ⟨x, hx, ?_⟩
      rcases hcol with h | h | h <;> simp [h]
    rw [admin_partner_groups_create, if_neg (by simp [hreq]), if_pos hany]

/-- Witness for C8 at concrete inputs: a second registration of the member
`hong` in partner group 1, a registration reusing a taken business number,
and a partner-group creation reusing a taken name, all rejected without a
write. -/
theorem C8_duplicate_checks_witness :
    register [memHong] 2 "hong" 1 "999-99-99999" = (RegisterResult.dupUsername, [memHong])
    ∧ ((register [memHong] 2 "kim" 1 "111-22-33333").1 = RegisterResult.dupUsername
      ∨ (register [memHong] 2 "kim" 1 "111-22-33333").1 = RegisterResult.dupBusinessNumber)
    ∧ admin_partner_groups_create [pgBusan] pgBusanDup
      = (PgCreateResult.duplicate, [pgBusan]) := by
  have h := C8_duplicate_checks [memHong] 2 "hong" 1 "999-99-99999" [pgBusan] pgBusanDup
  have h2 := C8_duplicate_checks [memHong] 2 "kim" 1 "111-22-33333" [] pgBusan
  refine ⟨h.1 ⟨memHong, by simp, rfl, rfl⟩, (h2.2.1 (by decide) ⟨memHong, by simp, rfl⟩).1,
    h.2.2 (by decide) (by decide) (by decide) (by decide) ⟨pgBusan, by simp, Or.inl rfl⟩⟩

/-! ## Claim C9 -/

/-- Claim C9: the `admin_required` gate admits a caller exactly when the
effective role resolves to `admin` and the caller's member row, re-read from
storage on every access, has `approval_status = '승인'`; admission therefore
always rests on a fresh storage read (a member row with approved status must
exist), and every failed check produces a redirect to the login page — the
gate has no other outcome, so no unhandled error can escape it. -/
theorem C9_admin_gate (sr : Option String) (members : List MemberRow) (uid : Nat) :
    (admin_required sr members uid = AuthResult.allow ↔
      resolve_role sr members uid = some ("admin")
        ∧ dbApprovalStatus members uid = some ("승인"))
    ∧ (admin_required sr members uid = AuthResult.allow →
        ∃ m ∈ members, m.id = uid ∧ m.approval_status = "승인")
    ∧ (admin_required sr members uid = AuthResult.allow
        ∨ admin_required sr members uid = AuthResult.redirectLogin) := by
  have hiff : admin_required sr members uid = AuthResult.allow ↔
      resolve_role sr members uid = some ("admin")
        ∧ dbApprovalStatus members uid = some ("승인") := by
    unfold admin_required
    rcases hr : resolve_role sr members uid with _ | r
    · simp
    · by_cases hra : r = "admin"
      · subst hra
        rcases happ : dbApprovalStatus members uid with _ | s
        · simp [happ]
        · by_cases hs : s = "승인"
          · subst hs
            simp [happ]
          · simp [happ, hs]
      · simp [hra]
  refine ⟨hiff, ?_, ?_⟩
  · intro hallow
    obtain ⟨_, happ⟩ := hiff.mp hallow
    unfold dbApprovalStatus at happ
    rcases hf : members.find? fun m => m.id == uid with _ | m0 <;> rw [hf] at happ
    · exact absurd happ (by simp)
    · refine ⟨m0, List.mem_of_find?_eq_some hf, ?_, ?_⟩
      · have := List.find?_some hf
        simpa using this
      · simpa using happ
  · rcases hres : admin_required sr members uid with _ | _
    · exact Or.inl rfl
    · exact Or.inr rfl

/-- Witness for C9 at concrete inputs: with a session-cached admin role and an
approved stored admin row the gate admits; the storage-read implication is
instantiated at that state. -/
theorem C9_admin_gate_witness :
    admin_required (some ("admin")) [memAdmin] 5 = AuthResult.allow
    ∧ ∃ m ∈ [memAdmin], m.id = 5 ∧ m.approval_status = "승인" := by
  have h := C9_admin_gate (some ("admin")) [memAdmin] 5
  have hallow : admin_required (some ("admin")) [memAdmin] 5 = AuthResult.allow :=
    h.1.mpr ⟨rfl, rfl⟩
  exact ⟨hallow, h.2.1 hallow⟩
